import Mathlib

/-!
Verification of the paged-search controller of the graphql-infinite-query
library: a shallow embedding of `useInfiniteLoadQuery` (src/lib/useInfiniteLoadQuery.ts),
its helpers `patchQueryResult` and the `updateQuery` merge callback, the search
handlers with their lodash-style trailing debounce, `reset`, and the pure
scroll detector `checkHasBottomReached` (src/lib/checkHasBottomReached.ts).

The hook's state is `searchValue : string | null` plus what it observes from
the Apollo executor (current response data, `loading`, `networkStatus`);
everything else (`data`, `pagination`, `hasNextPage`) is derived on each
observation.  We model the observable state as a record `Ctrl`, the debounce
timer as an explicit `(value, deadline)` pair against a natural-number clock,
and network completions as explicit events (`completeQuery` for a fresh query,
`completeFetchMore` for a next-page fetch applying the `updateQuery` callback).
-/

namespace GraphQLInfinite

/-- Request cursor `Pagination` from src/lib/type.ts:
`{ pageNumber: number; pageSize: number }`. -/
structure Pagination where
  pageNumber : Nat
  pageSize : Nat
deriving Repr, DecidableEq

/-- Server-reported `PaginationResponse` from src/lib/type.ts:
`{ pageNumber; pageSize; total; totalPage }`. -/
structure PaginationResponse where
  pageNumber : Nat
  pageSize : Nat
  total : Nat
  totalPage : Nat
deriving Repr, DecidableEq

/-- `EMPTY_PAGINATION` constant of useInfiniteLoadQuery.ts: all fields zero. -/
def EMPTY_PAGINATION : PaginationResponse :=
  { pageNumber := 0, pageSize := 0, total := 0, totalPage := 0 }

/-- `DEFAULT_PAGINATION` constant: `{ pageNumber: 1, pageSize: 10 }`. -/
def DEFAULT_PAGINATION : Pagination := { pageNumber := 1, pageSize := 10 }

/-- `DEFAULT_DEBOUNCE_TIME` constant: 500 ms. -/
def DEFAULT_DEBOUNCE_TIME : Nat := 500

/-- The canonical paged response shape the hook's extractors read: a list of
items together with pagination metadata (the `items` / `pagination` keys that
`patchQueryResult` writes back). -/
structure Response (α : Type) where
  items : List α
  pagination : PaginationResponse
deriving Repr, DecidableEq

/-- The `getItems` extractor for the canonical response shape. -/
def getItems {α : Type} (d : Response α) : List α := d.items

/-- The `getPagination` extractor for the canonical response shape. -/
def getPagination {α : Type} (d : Response α) : PaginationResponse := d.pagination

/-- Default `mergeItems`: `(existing, incoming) => [...existing, ...incoming]`. -/
def defaultMergeItems {α : Type} (existing incoming : List α) : List α :=
  existing ++ incoming

/-- Default variables shape `{ pagination, filter: search }` built by
`buildVariables` when no custom factory is supplied. -/
structure DefaultVariables where
  pagination : Pagination
  filter : Option String
deriving Repr, DecidableEq

/-- The default branch of `buildVariables`:
`({ pagination, filter: search })`. -/
def defaultBuildVariables (pagination : Pagination) (search : Option String) :
    DefaultVariables :=
  { pagination := pagination, filter := search }

/-- Observable state of one mounted `useInfiniteLoadQuery` instance: the React
clock (`now`), the `searchValue` state, the executor's current response data,
the observed loading flags, the pending debounced search (value and fire
deadline), and a ghost log `fired` of debounced invocations that have fired. -/
structure Ctrl (α : Type) where
  now : Nat
  searchValue : Option String
  response : Option (Response α)
  isFetching : Bool
  isFetchingNextPage : Bool
  pending : Option (String × Nat)
  fired : List String
deriving Repr, DecidableEq

/-- Initial state of a freshly mounted hook: `useState<string | null>(null)`,
no response yet, the initial query in flight, no pending debounce. -/
def initialCtrl (α : Type) : Ctrl α :=
  { now := 0, searchValue := none, response := none, isFetching := true,
    isFetchingNextPage := false, pending := none, fired := [] }

/-- Derived `items`: `data ? getItems(data) : []`. -/
def items {α : Type} (s : Ctrl α) : List α :=
  match s.response with
  | some d => getItems d
  | none => []

/-- Derived `pagination`: `data ? getPagination(data) : EMPTY_PAGINATION`. -/
def pagination {α : Type} (s : Ctrl α) : PaginationResponse :=
  match s.response with
  | some d => getPagination d
  | none => EMPTY_PAGINATION

/-- Derived `hasNextPage = pagination.pageNumber < pagination.totalPage`. -/
def hasNextPage {α : Type} (s : Ctrl α) : Bool :=
  decide ((pagination s).pageNumber < (pagination s).totalPage)

/-- Variables of the currently active query, as passed to `useQuery`:
`buildVariables(defaultPagination, searchValue)`. -/
def currentVariables {α V : Type} (bv : Pagination → Option String → V)
    (defaultPagination : Pagination) (s : Ctrl α) : V :=
  bv defaultPagination s.searchValue

/-- Helper `patchQueryResult(prev, next, mergedItems, nextPagination)`: spreads
`next` and overwrites its single query field's `items` and `pagination` keys
with the merged list and the incoming pagination.  `prev` is accepted but not
read, exactly as in the source. -/
def patchQueryResult {α : Type} (prev next : Response α) (mergedItems : List α)
    (nextPagination : PaginationResponse) : Response α :=
  { next with items := mergedItems, pagination := nextPagination }

/-- The `updateQuery` callback passed to `fetchMore`: if `fetchMoreResult` is
absent return `prev` unchanged, otherwise extract both item lists, merge them
with `mergeItems`, and patch the incoming response with the merged list and
the incoming pagination. -/
def updateQuery {α : Type} (mergeItems : List α → List α → List α)
    (prev : Response α) (fetchMoreResult : Option (Response α)) : Response α :=
  match fetchMoreResult with
  | none => prev
  | some fetchMoreRes =>
    let prevItems := getItems prev
    let nextItems := getItems fetchMoreRes
    let nextPagination := getPagination fetchMoreRes
    let merged := mergeItems prevItems nextItems
    patchQueryResult prev fetchMoreRes merged nextPagination

/-- `loadNextPage`: no-op returning no request when
`!hasNextPage || isFetchingNextPage || isFetching`; otherwise issues a
`fetchMore` whose variables are built from the cursor
`{ pageSize: pagination.pageSize, pageNumber: pagination.pageNumber + 1 }`
and the current `searchValue`, and the observed network status switches to
`fetchMore`.  Returns the new state and the issued request's variables. -/
def loadNextPage {α V : Type} (bv : Pagination → Option String → V)
    (s : Ctrl α) : Ctrl α × Option V :=
  if !hasNextPage s || s.isFetchingNextPage || s.isFetching then (s, none)
  else
    ({ s with isFetchingNextPage := true },
     some (bv { pageSize := (pagination s).pageSize,
                pageNumber := (pagination s).pageNumber + 1 } s.searchValue))

/-- Completion of a `fetchMore` request: the executor commits
`updateQuery(prev, { fetchMoreResult })` as its new current response and the
`fetchMore` network status ends. -/
def completeFetchMore {α : Type} (mergeItems : List α → List α → List α)
    (s : Ctrl α) (fetchMoreResult : Option (Response α)) : Ctrl α :=
  { s with isFetchingNextPage := false,
           response := s.response.map (fun prev => updateQuery mergeItems prev fetchMoreResult) }

/-- Completion of a fresh (non-incremental) query, as happens after the active
variables change: the incoming response replaces the previous one wholesale. -/
def completeQuery {α : Type} (s : Ctrl α) (r : Response α) : Ctrl α :=
  { s with response := some r, isFetching := false }

/-- The body of `onSearchImmediate`: `value.trim() || null`, i.e. `none` when
the trimmed input is empty (JS falsy), otherwise the trimmed string. -/
def normalizeSearch (value : String) : Option String :=
  let t := value.trim
  if t = "" then none else some t

/-- `onSearchImmediate(value)`: `setSearchValue(value.trim() || null)`. -/
def onSearchImmediate {α : Type} (s : Ctrl α) (value : String) : Ctrl α :=
  { s with searchValue := normalizeSearch value }

/-- `onSearch(value)`: the lodash trailing debounce of `onSearchImmediate` —
records `value` as pending and (re)sets the fire deadline to now + delay,
replacing any previously pending invocation. -/
def onSearch {α : Type} (delay : Nat) (s : Ctrl α) (value : String) : Ctrl α :=
  { s with pending := some (value, s.now + delay) }

/-- Time advances by `dt`: if a pending debounced search's deadline is reached
the debounced function fires, invoking `onSearchImmediate` with the pending
value (logged in `fired`); otherwise only the clock moves. -/
def advance {α : Type} (s : Ctrl α) (dt : Nat) : Ctrl α :=
  match s.pending with
  | some (v, d) =>
    if d ≤ s.now + dt then
      onSearchImmediate
        { s with now := s.now + dt, pending := none, fired := s.fired ++ [v] } v
    else { s with now := s.now + dt }
  | none => { s with now := s.now + dt }

/-- `reset()`: `onSearch.cancel()` (drops the pending debounced invocation)
then `setSearchValue(null)`. -/
def reset {α : Type} (s : Ctrl α) : Ctrl α :=
  { s with pending := none, searchValue := none }

/-- One timed `onSearch` call: let `dt` time pass, then call `onSearch` with
the given value. -/
def searchStep {α : Type} (delay : Nat) (s : Ctrl α) (c : Nat × String) : Ctrl α :=
  onSearch delay (advance s c.1) c.2

/-- Run a sequence of timed `onSearch` calls. -/
def runSearchCalls {α : Type} (delay : Nat) (s : Ctrl α)
    (calls : List (Nat × String)) : Ctrl α :=
  calls.foldl (searchStep delay) s

/-- `checkHasBottomReached` from src/lib/checkHasBottomReached.ts: reads
`scrollTop`, `scrollHeight`, `clientHeight` off the scroll container and
returns `scrollHeight - scrollTop - clientHeight <= bottomOffset`, with
`bottomOffset` defaulting to 30. -/
def checkHasBottomReached (scrollTop scrollHeight clientHeight : Int)
    (bottomOffset : Int := 30) : Bool :=
  decide (scrollHeight - scrollTop - clientHeight ≤ bottomOffset)

/-- C7: for every observed state, `hasNextPage` is true iff
`pagination.pageNumber < pagination.totalPage`; in particular a response with
pageNumber 3 of totalPage 3 gives `false` and pageNumber 2 of totalPage 3
gives `true`. -/
theorem hasNextPage_iff_boundary {α : Type} (s : Ctrl α) :
    (hasNextPage s = true ↔ (pagination s).pageNumber < (pagination s).totalPage) ∧
    hasNextPage (⟨0, none, some ⟨([] : List Unit), ⟨3, 10, 30, 3⟩⟩,
      false, false, none, []⟩ : Ctrl Unit) = false ∧
    hasNextPage (⟨0, none, some ⟨([] : List Unit), ⟨2, 10, 30, 3⟩⟩,
      false, false, none, []⟩ : Ctrl Unit) = true := by
  refine ⟨?_, by decide, by decide⟩
  simp [hasNextPage]

/-- C7 instantiation: the boundary facts at `pageNumber` 3 and 2 of
`totalPage` 3, read off the theorem at a concrete loaded state. -/
theorem hasNextPage_iff_boundary_witness :
    (hasNextPage (⟨0, none, some ⟨([] : List Unit), ⟨2, 10, 30, 3⟩⟩,
        false, false, none, []⟩ : Ctrl Unit) = true ↔ 2 < 3) ∧
    hasNextPage (⟨0, none, some ⟨([] : List Unit), ⟨3, 10, 30, 3⟩⟩,
      false, false, none, []⟩ : Ctrl Unit) = false ∧
    hasNextPage (⟨0, none, some ⟨([] : List Unit), ⟨2, 10, 30, 3⟩⟩,
      false, false, none, []⟩ : Ctrl Unit) = true :=
  hasNextPage_iff_boundary (⟨0, none, some ⟨([] : List Unit), ⟨2, 10, 30, 3⟩⟩,
    false, false, none, []⟩ : Ctrl Unit)

/-- C9: for all non-negative geometry values, `checkHasBottomReached` returns
true iff `contentHeight - scrollOffset - visibleHeight ≤ threshold`; with
contentHeight 1000, visibleHeight 400, threshold 30 it is true exactly when
the scroll offset is at least 570 (inclusive boundary), and threshold 0 is
tolerated.  It is a total pure function (a Lean `def`), so it has no state,
side effects or error cases. -/
theorem checkHasBottomReached_spec
    (contentHeight visibleHeight scrollOffset threshold : Int)
    (hc : 0 ≤ contentHeight) (hv : 0 ≤ visibleHeight)
    (hs : 0 ≤ scrollOffset) (ht : 0 ≤ threshold) :
    (checkHasBottomReached scrollOffset contentHeight visibleHeight threshold = true ↔
      contentHeight - scrollOffset - visibleHeight ≤ threshold) ∧
    (checkHasBottomReached scrollOffset 1000 400 30 = true ↔ 570 ≤ scrollOffset) ∧
    (checkHasBottomReached scrollOffset contentHeight visibleHeight =
      checkHasBottomReached scrollOffset contentHeight visibleHeight 30) ∧
    (checkHasBottomReached scrollOffset contentHeight visibleHeight 0 = true ↔
      contentHeight - scrollOffset - visibleHeight ≤ 0) := by
  refine ⟨?_, ?_, rfl, ?_⟩ <;> simp [checkHasBottomReached] <;> omega

/-- C9 instantiation at contentHeight 1000, visibleHeight 400, scrollOffset
570, threshold 30: the inclusive boundary point returns true. -/
theorem checkHasBottomReached_spec_witness :
    (((checkHasBottomReached 570 1000 400 30 = true ↔
        (1000 : Int) - 570 - 400 ≤ 30) ∧
      (checkHasBottomReached 570 1000 400 30 = true ↔ (570 : Int) ≤ 570) ∧
      (checkHasBottomReached 570 1000 400 =
        checkHasBottomReached 570 1000 400 30) ∧
      (checkHasBottomReached 570 1000 400 0 = true ↔
        (1000 : Int) - 570 - 400 ≤ 0)) ∧
     checkHasBottomReached 570 1000 400 30 = true) ∧
    checkHasBottomReached 570 1000 400 = checkHasBottomReached 570 1000 400 30 :=
  ⟨⟨checkHasBottomReached_spec 1000 400 570 30
      (by decide) (by decide) (by decide) (by decide), by decide⟩, rfl⟩

/-- C2: when the precondition of `loadNextPage` fails (`hasNextPage` false, or
a fetch or a next-page fetch in flight) the call is a no-op: it issues no
request and leaves the state — hence items, pagination and searchValue —
untouched, and repeating the call is equally a no-op. -/
theorem loadNextPage_noop_guard {α V : Type} (bv : Pagination → Option String → V)
    (s : Ctrl α)
    (h : hasNextPage s = false ∨ s.isFetching = true ∨ s.isFetchingNextPage = true) :
    loadNextPage bv s = (s, none) ∧
    loadNextPage bv (loadNextPage bv s).1 = (s, none) ∧
    items (loadNextPage bv s).1 = items s ∧
    pagination (loadNextPage bv s).1 = pagination s ∧
    (loadNextPage bv s).1.searchValue = s.searchValue := by
  have hg : (!hasNextPage s || s.isFetchingNextPage || s.isFetching) = true := by
    rcases h with h | h | h <;> simp [h]
  have h1 : loadNextPage bv s = (s, none) := by simp [loadNextPage, hg]
  exact ⟨h1, by rw [h1]; exact h1, by rw [h1], by rw [h1], by rw [h1]⟩

/-- C2 instantiation: on a loaded last page (pageNumber 3 of 3, nothing in
flight) `loadNextPage` does nothing, twice over. -/
theorem loadNextPage_noop_guard_witness :
    (hasNextPage (⟨0, none, some ⟨([] : List Unit), ⟨3, 10, 30, 3⟩⟩,
        false, false, none, []⟩ : Ctrl Unit) = false ∨
      (⟨0, none, some ⟨([] : List Unit), ⟨3, 10, 30, 3⟩⟩,
        false, false, none, []⟩ : Ctrl Unit).isFetching = true ∨
      (⟨0, none, some ⟨([] : List Unit), ⟨3, 10, 30, 3⟩⟩,
        false, false, none, []⟩ : Ctrl Unit).isFetchingNextPage = true) ∧
    (loadNextPage defaultBuildVariables
        (⟨0, none, some ⟨([] : List Unit), ⟨3, 10, 30, 3⟩⟩,
          false, false, none, []⟩ : Ctrl Unit) =
      ((⟨0, none, some ⟨([] : List Unit), ⟨3, 10, 30, 3⟩⟩,
          false, false, none, []⟩ : Ctrl Unit), none)) :=
  ⟨Or.inl (by decide),
   (loadNextPage_noop_guard defaultBuildVariables _ (Or.inl (by decide))).1⟩

/-- C8: whenever `loadNextPage` passes its precondition, the issued request's
variables are built by the variables factory from the cursor
pageNumber + 1 with the unchanged pageSize, together with the current
searchValue; the page advance alters neither the searchValue nor the observed
pagination (hence the pageSize). -/
theorem loadNextPage_request_variables {α V : Type}
    (bv : Pagination → Option String → V) (s : Ctrl α)
    (hnext : hasNextPage s = true) (hfetch : s.isFetching = false)
    (hnextp : s.isFetchingNextPage = false) :
    (loadNextPage bv s).2 =
      some (bv { pageNumber := (pagination s).pageNumber + 1,
                 pageSize := (pagination s).pageSize } s.searchValue) ∧
    (loadNextPage bv s).1.searchValue = s.searchValue ∧
    pagination (loadNextPage bv s).1 = pagination s := by
  have hg : (!hasNextPage s || s.isFetchingNextPage || s.isFetching) = false := by
    simp [hnext, hfetch, hnextp]
  refine ⟨?_, ?_, ?_⟩ <;> simp [loadNextPage, hg, pagination]

/-- C8 instantiation: from a loaded page 1 of 3 (pageSize 10) with search
"q", the next-page request carries pageNumber 2, pageSize 10 and the same
search string. -/
theorem loadNextPage_request_variables_witness :
    (hasNextPage (⟨0, some "q", some ⟨["a"], ⟨1, 10, 25, 3⟩⟩,
        false, false, none, []⟩ : Ctrl String) = true ∧
      (⟨0, some "q", some ⟨["a"], ⟨1, 10, 25, 3⟩⟩,
        false, false, none, []⟩ : Ctrl String).isFetching = false ∧
      (⟨0, some "q", some ⟨["a"], ⟨1, 10, 25, 3⟩⟩,
        false, false, none, []⟩ : Ctrl String).isFetchingNextPage = false) ∧
    ((loadNextPage defaultBuildVariables
        (⟨0, some "q", some ⟨["a"], ⟨1, 10, 25, 3⟩⟩,
          false, false, none, []⟩ : Ctrl String)).2 =
      some (defaultBuildVariables { pageNumber := 2, pageSize := 10 } (some "q")) ∧
     (loadNextPage defaultBuildVariables
        (⟨0, some "q", some ⟨["a"], ⟨1, 10, 25, 3⟩⟩,
          false, false, none, []⟩ : Ctrl String)).1.searchValue = some "q" ∧
     pagination (loadNextPage defaultBuildVariables
        (⟨0, some "q", some ⟨["a"], ⟨1, 10, 25, 3⟩⟩,
          false, false, none, []⟩ : Ctrl String)).1 = ⟨1, 10, 25, 3⟩) :=
  ⟨⟨by decide, rfl, rfl⟩,
   loadNextPage_request_variables defaultBuildVariables _
     (by decide) rfl rfl⟩

/-- C1: when `loadNextPage` passes its precondition and the executor delivers
an incoming page, the committed response's item list is
`mergeItems(existingItems, incomingItems)` and the committed pagination is the
incoming response's pagination (not that of the merged union). -/
theorem loadNextPage_success_merge {α V : Type}
    (bv : Pagination → Option String → V)
    (mergeItems : List α → List α → List α) (s : Ctrl α) (prev inc : Response α)
    (hnext : hasNextPage s = true) (hfetch : s.isFetching = false)
    (hnextp : s.isFetchingNextPage = false) (hresp : s.response = some prev) :
    items (completeFetchMore mergeItems (loadNextPage bv s).1 (some inc)) =
      mergeItems (getItems prev) (getItems inc) ∧
    pagination (completeFetchMore mergeItems (loadNextPage bv s).1 (some inc)) =
      getPagination inc := by
  have hg : (!hasNextPage s || s.isFetchingNextPage || s.isFetching) = false := by
    simp [hnext, hfetch, hnextp]
  refine ⟨?_, ?_⟩ <;>
    simp [loadNextPage, hg, completeFetchMore, hresp, updateQuery,
          patchQueryResult, items, pagination, getItems, getPagination]

/-- C1 instantiation: default merge, existing items [a, b], incoming [c, d]
on page 2 of 2 — the accumulated data is [a, b, c, d] and the pagination is
the incoming page's. -/
theorem loadNextPage_success_merge_witness :
    (hasNextPage (⟨0, none, some ⟨["a", "b"], ⟨1, 2, 4, 2⟩⟩,
        false, false, none, []⟩ : Ctrl String) = true ∧
      (⟨0, none, some ⟨["a", "b"], ⟨1, 2, 4, 2⟩⟩,
        false, false, none, []⟩ : Ctrl String).isFetching = false ∧
      (⟨0, none, some ⟨["a", "b"], ⟨1, 2, 4, 2⟩⟩,
        false, false, none, []⟩ : Ctrl String).isFetchingNextPage = false ∧
      (⟨0, none, some ⟨["a", "b"], ⟨1, 2, 4, 2⟩⟩,
        false, false, none, []⟩ : Ctrl String).response =
        some ⟨["a", "b"], ⟨1, 2, 4, 2⟩⟩) ∧
    (items (completeFetchMore defaultMergeItems
        (loadNextPage defaultBuildVariables
          (⟨0, none, some ⟨["a", "b"], ⟨1, 2, 4, 2⟩⟩,
            false, false, none, []⟩ : Ctrl String)).1
        (some ⟨["c", "d"], ⟨2, 2, 4, 2⟩⟩)) =
      defaultMergeItems (getItems ⟨["a", "b"], ⟨1, 2, 4, 2⟩⟩)
        (getItems ⟨["c", "d"], ⟨2, 2, 4, 2⟩⟩) ∧
     pagination (completeFetchMore defaultMergeItems
        (loadNextPage defaultBuildVariables
          (⟨0, none, some ⟨["a", "b"], ⟨1, 2, 4, 2⟩⟩,
            false, false, none, []⟩ : Ctrl String)).1
        (some ⟨["c", "d"], ⟨2, 2, 4, 2⟩⟩)) =
      getPagination ⟨["c", "d"], ⟨2, 2, 4, 2⟩⟩) ∧
    defaultMergeItems ["a", "b"] ["c", "d"] = ["a", "b", "c", "d"] :=
  ⟨⟨by decide, rfl, rfl, rfl⟩,
   loadNextPage_success_merge defaultBuildVariables defaultMergeItems _
     ⟨["a", "b"], ⟨1, 2, 4, 2⟩⟩ ⟨["c", "d"], ⟨2, 2, 4, 2⟩⟩
     (by decide) rfl rfl rfl,
   rfl⟩

/-- C3: when the next-page fetch yields no incoming result, the `updateQuery`
callback returns the previous result unchanged for every merge function, so
the committed items, pagination and the rest of the state are untouched and
the outcome does not depend on the merge function at all (it is never
invoked); the operation is total, so nothing throws. -/
theorem fetchMore_missing_result_noop {α : Type}
    (m mOther : List α → List α → List α) (s : Ctrl α) :
    (∀ prev : Response α, updateQuery m prev none = prev) ∧
    items (completeFetchMore m s none) = items s ∧
    pagination (completeFetchMore m s none) = pagination s ∧
    (completeFetchMore m s none).response = s.response ∧
    (completeFetchMore m s none).searchValue = s.searchValue ∧
    completeFetchMore m s none = completeFetchMore mOther s none := by
  obtain ⟨n, sv, r, f, fn, p, fi⟩ := s
  cases r <;>
    simp [completeFetchMore, updateQuery, items, pagination]

/-- C3 instantiation: at a concrete loaded state, an absent fetchMore result
leaves items and pagination exactly as they were, for two different merge
functions. -/
theorem fetchMore_missing_result_noop_witness :
    (∀ prev : Response String, updateQuery defaultMergeItems prev none = prev) ∧
    items (completeFetchMore defaultMergeItems
        (⟨0, none, some ⟨["a", "b"], ⟨1, 2, 4, 2⟩⟩,
          false, false, none, []⟩ : Ctrl String) none) =
      items (⟨0, none, some ⟨["a", "b"], ⟨1, 2, 4, 2⟩⟩,
          false, false, none, []⟩ : Ctrl String) ∧
    pagination (completeFetchMore defaultMergeItems
        (⟨0, none, some ⟨["a", "b"], ⟨1, 2, 4, 2⟩⟩,
          false, false, none, []⟩ : Ctrl String) none) =
      pagination (⟨0, none, some ⟨["a", "b"], ⟨1, 2, 4, 2⟩⟩,
          false, false, none, []⟩ : Ctrl String) ∧
    (completeFetchMore defaultMergeItems
        (⟨0, none, some ⟨["a", "b"], ⟨1, 2, 4, 2⟩⟩,
          false, false, none, []⟩ : Ctrl String) none).response =
      (⟨0, none, some ⟨["a", "b"], ⟨1, 2, 4, 2⟩⟩,
          false, false, none, []⟩ : Ctrl String).response ∧
    (completeFetchMore defaultMergeItems
        (⟨0, none, some ⟨["a", "b"], ⟨1, 2, 4, 2⟩⟩,
          false, false, none, []⟩ : Ctrl String) none).searchValue =
      (⟨0, none, some ⟨["a", "b"], ⟨1, 2, 4, 2⟩⟩,
          false, false, none, []⟩ : Ctrl String).searchValue ∧
    completeFetchMore defaultMergeItems
        (⟨0, none, some ⟨["a", "b"], ⟨1, 2, 4, 2⟩⟩,
          false, false, none, []⟩ : Ctrl String) none =
      completeFetchMore (fun existing _ => existing)
        (⟨0, none, some ⟨["a", "b"], ⟨1, 2, 4, 2⟩⟩,
          false, false, none, []⟩ : Ctrl String) none :=
  fetchMore_missing_result_noop defaultMergeItems (fun existing _ => existing) _

/-- C4: from any controller state, `reset` drops the pending debounced search
(so advancing time by any amount only moves the clock: no debounced
invocation fires and the fired log is unchanged), clears `searchValue` to its
null initial value, and the active query's variables become the ones built
from the default pagination and the cleared search value. -/
theorem reset_spec {α V : Type} (bv : Pagination → Option String → V)
    (defaultPagination : Pagination) (s : Ctrl α) (dt : Nat) :
    (reset s).pending = none ∧
    (reset s).searchValue = none ∧
    advance (reset s) dt = { reset s with now := s.now + dt } ∧
    (advance (reset s) dt).fired = s.fired ∧
    (advance (reset s) dt).searchValue = none ∧
    currentVariables bv defaultPagination (reset s) = bv defaultPagination none :=
  ⟨rfl, rfl, rfl, rfl, rfl, rfl⟩

/-- C4 instantiation: resetting a state that has a pending debounced search
("zz" due at time 40) and an active search "q" cancels the timer — advancing
600 time units fires nothing — and clears the search. -/
theorem reset_spec_witness :
    (reset (⟨10, some "q", some ⟨["a"], ⟨2, 1, 3, 3⟩⟩,
        false, false, some ("zz", 40), []⟩ : Ctrl String)).pending = none ∧
    (reset (⟨10, some "q", some ⟨["a"], ⟨2, 1, 3, 3⟩⟩,
        false, false, some ("zz", 40), []⟩ : Ctrl String)).searchValue = none ∧
    advance (reset (⟨10, some "q", some ⟨["a"], ⟨2, 1, 3, 3⟩⟩,
        false, false, some ("zz", 40), []⟩ : Ctrl String)) 600 =
      { reset (⟨10, some "q", some ⟨["a"], ⟨2, 1, 3, 3⟩⟩,
          false, false, some ("zz", 40), []⟩ : Ctrl String) with now := 10 + 600 } ∧
    (advance (reset (⟨10, some "q", some ⟨["a"], ⟨2, 1, 3, 3⟩⟩,
        false, false, some ("zz", 40), []⟩ : Ctrl String)) 600).fired = [] ∧
    (advance (reset (⟨10, some "q", some ⟨["a"], ⟨2, 1, 3, 3⟩⟩,
        false, false, some ("zz", 40), []⟩ : Ctrl String)) 600).searchValue = none ∧
    currentVariables defaultBuildVariables DEFAULT_PAGINATION
        (reset (⟨10, some "q", some ⟨["a"], ⟨2, 1, 3, 3⟩⟩,
          false, false, some ("zz", 40), []⟩ : Ctrl String)) =
      defaultBuildVariables DEFAULT_PAGINATION none :=
  reset_spec defaultBuildVariables DEFAULT_PAGINATION _ 600

/-- C6: `onSearchImmediate` trims the input and installs it as the search
value (`null` standing for the empty trimmed string), which rebuilds the
active query's variables from the default pagination and the new search term;
when the fresh page-1 response arrives it replaces the accumulated items
wholesale and its pagination (pageNumber 1) becomes authoritative. -/
theorem onSearchImmediate_restart {α V : Type}
    (bv : Pagination → Option String → V) (defaultPagination : Pagination)
    (s : Ctrl α) (value : String) (r : Response α)
    (hr : r.pagination.pageNumber = 1) :
    (onSearchImmediate s value).searchValue = normalizeSearch value ∧
    (onSearchImmediate s value).searchValue.getD "" = value.trim ∧
    currentVariables bv defaultPagination (onSearchImmediate s value) =
      bv defaultPagination (normalizeSearch value) ∧
    items (completeQuery (onSearchImmediate s value) r) = r.items ∧
    pagination (completeQuery (onSearchImmediate s value) r) = r.pagination ∧
    (pagination (completeQuery (onSearchImmediate s value) r)).pageNumber = 1 := by
  refine ⟨rfl, ?_, rfl, rfl, rfl, hr⟩
  by_cases h : value.trim = "" <;>
    simp [onSearchImmediate, normalizeSearch, h]

/-- C6 instantiation: after pages 1 and 2 are accumulated (4 items),
searching for "x" installs search value "x" and the fresh page-1 response
(["x1"]) replaces the accumulated list, with pageNumber back at 1. -/
theorem onSearchImmediate_restart_witness :
    (⟨["x1"], ⟨1, 2, 1, 1⟩⟩ : Response String).pagination.pageNumber = 1 ∧
    ((onSearchImmediate (⟨0, none, some ⟨["a", "b", "c", "d"], ⟨2, 2, 4, 2⟩⟩,
        false, false, none, []⟩ : Ctrl String) " x ").searchValue =
      normalizeSearch " x " ∧
     (onSearchImmediate (⟨0, none, some ⟨["a", "b", "c", "d"], ⟨2, 2, 4, 2⟩⟩,
        false, false, none, []⟩ : Ctrl String) " x ").searchValue.getD "" =
      " x ".trim ∧
     currentVariables defaultBuildVariables DEFAULT_PAGINATION
        (onSearchImmediate (⟨0, none, some ⟨["a", "b", "c", "d"], ⟨2, 2, 4, 2⟩⟩,
          false, false, none, []⟩ : Ctrl String) " x ") =
      defaultBuildVariables DEFAULT_PAGINATION (normalizeSearch " x ") ∧
     items (completeQuery
        (onSearchImmediate (⟨0, none, some ⟨["a", "b", "c", "d"], ⟨2, 2, 4, 2⟩⟩,
          false, false, none, []⟩ : Ctrl String) " x ")
        ⟨["x1"], ⟨1, 2, 1, 1⟩⟩) = ["x1"] ∧
     pagination (completeQuery
        (onSearchImmediate (⟨0, none, some ⟨["a", "b", "c", "d"], ⟨2, 2, 4, 2⟩⟩,
          false, false, none, []⟩ : Ctrl String) " x ")
        ⟨["x1"], ⟨1, 2, 1, 1⟩⟩) = ⟨1, 2, 1, 1⟩ ∧
     (pagination (completeQuery
        (onSearchImmediate (⟨0, none, some ⟨["a", "b", "c", "d"], ⟨2, 2, 4, 2⟩⟩,
          false, false, none, []⟩ : Ctrl String) " x ")
        ⟨["x1"], ⟨1, 2, 1, 1⟩⟩)).pageNumber = 1) :=
  ⟨rfl,
   onSearchImmediate_restart defaultBuildVariables DEFAULT_PAGINATION _ " x "
     ⟨["x1"], ⟨1, 2, 1, 1⟩⟩ rfl⟩

/-- C10: `onSearchImmediate` maps any input whose trimmed form is empty to
the null search value — never the empty string — so a cleared search equals
the never-searched initial state's search value, and the installed value is
always either null or the non-empty trimmed input. -/
theorem onSearchImmediate_empty_to_null {α : Type} (s : Ctrl α) (value : String) :
    (onSearchImmediate s value).searchValue =
      (if value.trim = "" then none else some value.trim) ∧
    (onSearchImmediate s value).searchValue ≠ some "" ∧
    ((onSearchImmediate s value).searchValue = (initialCtrl α).searchValue ↔
      value.trim = "") ∧
    ((onSearchImmediate s value).searchValue = none ∨
      ((onSearchImmediate s value).searchValue = some value.trim ∧
        value.trim ≠ "")) := by
  by_cases h : value.trim = "" <;>
    simp [onSearchImmediate, normalizeSearch, initialCtrl, h]

/-- C10 instantiation: a whitespace-only input sets the search value to null
(the initial value), not to the empty string. -/
theorem onSearchImmediate_empty_to_null_witness :
    (onSearchImmediate (initialCtrl Unit) "   ").searchValue =
      (if "   ".trim = "" then none else some "   ".trim) ∧
    (onSearchImmediate (initialCtrl Unit) "   ").searchValue ≠ some "" ∧
    ((onSearchImmediate (initialCtrl Unit) "   ").searchValue =
        (initialCtrl Unit).searchValue ↔ "   ".trim = "") ∧
    ((onSearchImmediate (initialCtrl Unit) "   ").searchValue = none ∨
      ((onSearchImmediate (initialCtrl Unit) "   ").searchValue =
          some "   ".trim ∧ "   ".trim ≠ "")) :=
  onSearchImmediate_empty_to_null (initialCtrl Unit) "   "

/-- Helper: the last element of a nonempty list does not depend on the
default supplied to `getD`. -/
theorem getLastD_cons_irrel {β : Type} (a : β) (l : List β) (x y : β) :
    (a :: l).getLast?.getD x = (a :: l).getLast?.getD y := by
  induction l generalizing a with
  | nil => rfl
  | cons b t ih => rw [List.getLast?_cons_cons]; exact ih b

/-- Helper for the debounce analysis: while every gap between consecutive
`onSearch` calls stays below the delay, a run of calls starting from a state
whose pending invocation was scheduled a full delay ahead fires nothing —
the fired log, search value and response are untouched — and ends with the
last call's value pending, scheduled a full delay after the last call. -/
theorem runSearchCalls_pending {α : Type} (delay : Nat) :
    ∀ (calls : List (Nat × String)) (s : Ctrl α) (v : String),
      (∀ c ∈ calls, c.1 < delay) →
      s.pending = some (v, s.now + delay) →
      (runSearchCalls delay s calls).fired = s.fired ∧
      (runSearchCalls delay s calls).searchValue = s.searchValue ∧
      (runSearchCalls delay s calls).response = s.response ∧
      (runSearchCalls delay s calls).pending =
        some ((calls.getLast?.getD (0, v)).2,
              (runSearchCalls delay s calls).now + delay) := by
  intro calls
  induction calls with
  | nil =>
    intro s v _ hp
    exact ⟨rfl, rfl, rfl, by simpa using hp⟩
  | cons c cs ih =>
    intro s v h hp
    have hc : c.1 < delay := h c (List.mem_cons_self _ _)
    have hcs : ∀ x ∈ cs, x.1 < delay := fun x hx => h x (List.mem_cons_of_mem _ hx)
    have hnofire : ¬ (s.now + delay ≤ s.now + c.1) := by omega
    have hstep : searchStep delay s c =
        { s with now := s.now + c.1,
                 pending := some (c.2, s.now + c.1 + delay) } := by
      simp [searchStep, advance, hp, onSearch, hnofire]
    have hrun : runSearchCalls delay s (c :: cs) =
        runSearchCalls delay (searchStep delay s c) cs := rfl
    rw [hrun, hstep]
    have hmain := ih { s with now := s.now + c.1,
                              pending := some (c.2, s.now + c.1 + delay) }
      c.2 hcs rfl
    refine ⟨hmain.1, hmain.2.1, hmain.2.2.1, ?_⟩
    rw [hmain.2.2.2]
    cases cs with
    | nil => simp
    | cons cHead csTail =>
      rw [List.getLast?_cons_cons,
          getLastD_cons_irrel cHead csTail (0, c.2) (0, v)]

/-- C5: for any nonempty burst of `onSearch` calls whose gaps all stay inside
the debounce window, nothing fires during the burst; once the window elapses
after the last call, exactly one debounced invocation fires, carrying the
last value, and it is the one applied to the search state. -/
theorem onSearch_debounce_coalesce {α : Type} (delay dt : Nat) (s : Ctrl α)
    (calls : List (Nat × String)) (dl : Nat) (vl : String)
    (hpend : s.pending = none)
    (hwindow : ∀ c ∈ calls, c.1 < delay)
    (hlast : calls.getLast? = some (dl, vl))
    (hdt : delay ≤ dt) :
    (runSearchCalls delay s calls).fired = s.fired ∧
    (advance (runSearchCalls delay s calls) dt).fired = s.fired ++ [vl] ∧
    (advance (runSearchCalls delay s calls) dt).searchValue =
      normalizeSearch vl ∧
    (advance (runSearchCalls delay s calls) dt).pending = none := by
  cases calls with
  | nil => simp at hlast
  | cons c cs =>
    have hcs : ∀ x ∈ cs, x.1 < delay :=
      fun x hx => hwindow x (List.mem_cons_of_mem _ hx)
    have hstep : searchStep delay s c =
        { s with now := s.now + c.1,
                 pending := some (c.2, s.now + c.1 + delay) } := by
      simp [searchStep, advance, hpend, onSearch]
    have hrun : runSearchCalls delay s (c :: cs) =
        runSearchCalls delay (searchStep delay s c) cs := rfl
    have hmain := runSearchCalls_pending delay cs
      { s with now := s.now + c.1,
               pending := some (c.2, s.now + c.1 + delay) } c.2 hcs rfl
    have hvl : (cs.getLast?.getD (0, c.2)).2 = vl := by
      cases cs with
      | nil =>
        have hcv : c = (dl, vl) := by simpa using hlast
        simp [hcv]
      | cons cHead csTail =>
        rw [List.getLast?_cons_cons] at hlast
        simp [hlast]
    rw [hrun, hstep]
    have hfired : (runSearchCalls delay
        { s with now := s.now + c.1,
                 pending := some (c.2, s.now + c.1 + delay) } cs).fired =
        s.fired := hmain.1
    have hpend2 := hmain.2.2.2
    rw [hvl] at hpend2
    have hfire : (runSearchCalls delay
        { s with now := s.now + c.1,
                 pending := some (c.2, s.now + c.1 + delay) } cs).now + delay ≤
        (runSearchCalls delay
        { s with now := s.now + c.1,
                 pending := some (c.2, s.now + c.1 + delay) } cs).now + dt := by
      omega
    refine ⟨hfired, ?_, ?_, ?_⟩ <;>
      simp [advance, hpend2, hfire, onSearchImmediate, hfired]

/-- C5 instantiation: three `onSearch` calls ("a", "ab", "abc") 100 time
units apart, with delay 500; after 500 more units exactly one invocation has
fired, with value "abc". -/
theorem onSearch_debounce_coalesce_witness :
    ((initialCtrl Unit).pending = none ∧
      (∀ c ∈ [(0, "a"), (100, "ab"), (100, "abc")], c.1 < 500) ∧
      [(0, "a"), (100, "ab"), (100, "abc")].getLast? = some (100, "abc") ∧
      500 ≤ 500) ∧
    ((runSearchCalls 500 (initialCtrl Unit)
        [(0, "a"), (100, "ab"), (100, "abc")]).fired = (initialCtrl Unit).fired ∧
     (advance (runSearchCalls 500 (initialCtrl Unit)
        [(0, "a"), (100, "ab"), (100, "abc")]) 500).fired =
      (initialCtrl Unit).fired ++ ["abc"] ∧
     (advance (runSearchCalls 500 (initialCtrl Unit)
        [(0, "a"), (100, "ab"), (100, "abc")]) 500).searchValue =
      normalizeSearch "abc" ∧
     (advance (runSearchCalls 500 (initialCtrl Unit)
        [(0, "a"), (100, "ab"), (100, "abc")]) 500).pending = none) :=
  ⟨⟨rfl, by decide, rfl, by decide⟩,
   onSearch_debounce_coalesce 500 500 (initialCtrl Unit)
     [(0, "a"), (100, "ab"), (100, "abc")] 100 "abc"
     rfl (by decide) rfl (by decide)⟩

end GraphQLInfinite
